import Mathlib

/-!
Shallow embedding of `src/predictMemeDex.py` (PredictWithDexScanner).

Python floats are modelled as rationals (ℚ); JSON values as an inductive
type; Python exceptions as an explicit error type threaded through
`Except`.  Division in the scoring code always has a denominator floored
at 1 (`max sells_24h 1`, `max fdv 1`), which is strictly positive, so
Python's ZeroDivisionError is unreachable there and plain `ℚ` division is
a faithful model; the one place a zero denominator can occur
(`current_balance / buy_price` in the monitor) is modelled with an
explicit check that raises `zeroDivisionError`.
-/

/-- JSON values, as returned by the DexScreener endpoints. -/
inductive Json where
  | null
  | bool (b : Bool)
  | num (q : ℚ)
  | str (s : String)
  | arr (xs : List Json)
  | obj (fields : List (String × Json))

/-- Python exception classes relevant to this program.  `exception` is the
bare `Exception` raised by `fetch_data` (non-200 status, line 24) and by
`get_random_tokens` (format check, line 35). -/
inductive PyErr where
  | keyError
  | indexError
  | typeError
  | valueError
  | zeroDivisionError
  | attributeError
  | exception
deriving DecidableEq

/-- Python truthiness of a JSON value (`not token_data["pairs"]`, line 49). -/
def truthy : Json → Bool
  | .null => false
  | .bool b => b
  | .num q => q != 0
  | .str s => !s.isEmpty
  | .arr xs => !xs.isEmpty
  | .obj fs => !fs.isEmpty

/-- Python subscript `d[k]` with a string key: KeyError on a dict missing
the key, TypeError on lists/strings/scalars. -/
def getItem (j : Json) (k : String) : Except PyErr Json :=
  match j with
  | .obj fs =>
      match fs.find? (fun kv => kv.1 == k) with
      | some kv => .ok kv.2
      | none => .error .keyError
  | _ => .error .typeError

/-- Python subscript `x[i]` with an int index: element of a list,
one-character string of a string, KeyError on a (string-keyed) dict,
TypeError otherwise. -/
def indexNat (j : Json) (i : Nat) : Except PyErr Json :=
  match j with
  | .arr xs =>
      match xs.get? i with
      | some v => .ok v
      | none => .error .indexError
  | .str s =>
      match s.toList.get? i with
      | some c => .ok (.str (String.mk [c]))
      | none => .error .indexError
  | .obj _ => .error .keyError
  | _ => .error .typeError

/-- Python `d.get(k, default)`: on a dict returns the value or the default;
on any non-dict `.get` is a missing attribute (AttributeError). -/
def dictGet (j : Json) (k : String) (d : Json) : Except PyErr Json :=
  match j with
  | .obj fs =>
      match fs.find? (fun kv => kv.1 == k) with
      | some kv => .ok kv.2
      | none => .ok d
  | _ => .error .attributeError

/-- Python `k in x` for a string `k` (line 49): key membership for dicts,
element equality for lists (a string equals only an equal string),
substring test for strings, TypeError otherwise. -/
def pyContainsKey (j : Json) (k : String) : Except PyErr Bool :=
  match j with
  | .obj fs => .ok (fs.any (fun kv => kv.1 == k))
  | .arr xs =>
      .ok (xs.any (fun x => match x with
        | .str s => s == k
        | _ => false))
  | .str s => .ok (!((s.splitOn k).length == 1))
  | _ => .error .typeError

/-- Digit string to natural number value. -/
def digitsToNat (cs : List Char) : Nat :=
  cs.foldl (fun a c => 10 * a + (c.toNat - 48)) 0

/-- Non-empty all-digit character list. -/
def isDigits (cs : List Char) : Bool :=
  !cs.isEmpty && cs.all (fun c => c.isDigit)

/-- Unsigned decimal literal `ddd`, `ddd.ddd`, `ddd.` or `.ddd`. -/
def parseUnsigned (s : String) : Option ℚ :=
  match s.splitOn "." with
  | [w] => if isDigits w.toList then some ((digitsToNat w.toList : ℚ)) else none
  | [w, f] =>
      if (w.isEmpty || isDigits w.toList) && (f.isEmpty || isDigits f.toList)
          && !(w.isEmpty && f.isEmpty) then
        some ((digitsToNat w.toList : ℚ) + (digitsToNat f.toList : ℚ) / (10 : ℚ) ^ f.length)
      else none
  | _ => none

/-- Python `float(str)` on decimal literals with optional sign and
surrounding whitespace; exponent, infinity and nan forms are omitted (no
claim exercises them) — a rejected string raises ValueError, as in Python. -/
def parsePyFloatStr (s : String) : Option ℚ :=
  let t := s.trim
  if t.startsWith "-" then (parseUnsigned (t.drop 1)).map (fun q => -q)
  else if t.startsWith "+" then parseUnsigned (t.drop 1)
  else parseUnsigned t

/-- Python `float(x)` on a JSON value: numbers pass through, booleans map
to 0/1, strings are parsed (ValueError on failure), everything else is a
TypeError. -/
def pyFloat (j : Json) : Except PyErr ℚ :=
  match j with
  | .num q => .ok q
  | .bool b => .ok (if b then 1 else 0)
  | .str s =>
      match parsePyFloatStr s with
      | some q => .ok q
      | none => .error .valueError
  | _ => .error .typeError

/-- The numeric fields extracted from the first pair (lines 56-73). -/
structure Extracted where
  liquidity : ℚ
  volume_24h : ℚ
  buys_24h : ℚ
  sells_24h : ℚ
  bsr : ℚ
  fdv : ℚ
  price_change_24h : ℚ
  market_cap : ℚ
deriving DecidableEq

/-- Field extraction with defaulting, lines 56-73 of `evaluate_token`:
`liquidity = float(pair.get("liquidity", {}).get("usd", 0))`,
`volume_24h = float(pair.get("volume", {}).get("h24", 0))`,
`txns = pair.get("txns", {}).get("h24", {})`,
`buys_24h = float(txns.get("buys", 0))`, `sells_24h = float(txns.get("sells", 0))`,
`buy_sell_ratio = buys_24h / max(sells_24h, 1)` (denominator ≥ 1),
`fdv = float(pair.get("fdv", 1))`,
`price_change_24h = float(pair.get("priceChange", {}).get("h24", 0))`,
`market_cap = float(pair.get("marketCap", fdv))`. -/
def extractFields (pair : Json) : Except PyErr Extracted := do
  let liquidity ← pyFloat (← dictGet (← dictGet pair "liquidity" (Json.obj [])) "usd" (Json.num 0))
  let volume_24h ← pyFloat (← dictGet (← dictGet pair "volume" (Json.obj [])) "h24" (Json.num 0))
  let txns ← dictGet (← dictGet pair "txns" (Json.obj [])) "h24" (Json.obj [])
  let buys_24h ← pyFloat (← dictGet txns "buys" (Json.num 0))
  let sells_24h ← pyFloat (← dictGet txns "sells" (Json.num 0))
  let bsr := buys_24h / max sells_24h 1
  let fdv ← pyFloat (← dictGet pair "fdv" (Json.num 1))
  let price_change_24h ← pyFloat (← dictGet (← dictGet pair "priceChange" (Json.obj [])) "h24" (Json.num 0))
  let market_cap ← pyFloat (← dictGet pair "marketCap" (Json.num fdv))
  return ⟨liquidity, volume_24h, buys_24h, sells_24h, bsr, fdv, price_change_24h, market_cap⟩

/-- Score formula, lines 77-82: weighted sum normalized by `max(fdv, 1)`.
A pure function of the extracted snapshot, hence deterministic. -/
def computeScore (e : Extracted) : ℚ :=
  (e.liquidity * 0.4 + e.volume_24h * 0.3 + e.bsr * 0.2 + e.price_change_24h * 0.1) / max e.fdv 1

/-- Extraction followed by scoring, the numeric core of `evaluate_token`. -/
def scoreOfPair (pair : Json) : Except PyErr ℚ :=
  (extractFields pair).map computeScore

/-- Result dict of `evaluate_token` (lines 88-92). -/
structure EvaluatedToken where
  tokenAddress : Json
  tokenName : Json
  score : ℚ

/-- Body of the `try` block of `evaluate_token` (lines 44-92), in source
order: read `token['tokenAddress']` (line 45), fetch (line 46; the fetch
outcome is the `fetchResult` argument), the `pairs` presence/truthiness
guard (line 49, short-circuit), `pair = token_data["pairs"][0]` (line 54;
the repeated subscripts at lines 54 and 90 are pure and recomputed values
are reused), field extraction, score, and the result dict with
`tokenName = pairs[0]["baseToken"]["symbol"]` (line 90). -/
def evalBody (token : Json) (fetchResult : Except PyErr Json) : Except PyErr (Option EvaluatedToken) := do
  let addr ← getItem token "tokenAddress"
  let token_data ← fetchResult
  let hasPairs ← pyContainsKey token_data "pairs"
  if !hasPairs then return none
  let pairsVal ← getItem token_data "pairs"
  if !(truthy pairsVal) then return none
  let pair ← indexNat pairsVal 0
  let e ← extractFields pair
  let score := computeScore e
  let baseToken ← getItem pair "baseToken"
  let symbol ← getItem baseToken "symbol"
  return some ⟨addr, symbol, score⟩

/-- The exception classes named in the `except` clause at line 94:
`(KeyError, ZeroDivisionError, TypeError, ValueError)`.  The bare
`Exception` from `fetch_data` is not among them, nor are AttributeError
and IndexError. -/
def caughtByEvaluate : PyErr → Bool
  | .keyError => true
  | .zeroDivisionError => true
  | .typeError => true
  | .valueError => true
  | _ => false

/-- `evaluate_token` (lines 38-97): the try body, with the caught classes
turned into `None` (line 97) and every other exception propagating. -/
def evaluate_token (token : Json) (fetchResult : Except PyErr Json) : Except PyErr (Option EvaluatedToken) :=
  match evalBody token fetchResult with
  | .ok r => .ok r
  | .error e => if caughtByEvaluate e then .ok none else .error e

/-- The evaluation loop of `main` (lines 146-150): each token is evaluated
in sequence with its fetch outcome; `None` results are filtered out; an
uncaught exception propagates and aborts the batch (there is no try/except
in `main`). -/
def evaluateBatch : List (Json × Except PyErr Json) → Except PyErr (List EvaluatedToken)
  | [] => .ok []
  | (tok, fr) :: rest => do
      let r ← evaluate_token tok fr
      let tail ← evaluateBatch rest
      match r with
      | some t => return t :: tail
      | none => return tail

/-- Model of `random.sample(xs, k)` driven by an injected choice oracle
`pick` (the randomness source, a seam as the spec suggests): repeatedly
pick an index into the remaining elements and remove it — sampling without
replacement.  `random.sample` itself is Python standard library, not
repository code; its uniformity is its own contract, modelled here by
quantifying over every possible oracle. -/
def pySample (pick : Nat → Nat) : Nat → List Json → List Json
  | 0, _ => []
  | k + 1, xs =>
      if xs.isEmpty then []
      else
        let i := pick k % xs.length
        xs.getD i Json.null :: pySample pick k (xs.eraseIdx i)

/-- `get_random_tokens` (lines 27-36): fetch the listing, require a list
(`isinstance(data, list)`), else raise the bare Exception of line 35;
sample `min(len(data), 15)` elements. -/
def get_random_tokens (pick : Nat → Nat) (fetchResult : Except PyErr Json) : Except PyErr (List Json) := do
  let data ← fetchResult
  match data with
  | .arr xs => return pySample pick (min xs.length 15) xs
  | _ => .error .exception

/-- Python `max(evaluated_tokens, key=lambda x: x["score"])` (line 162):
keep the current best, replacing it only on a strictly greater key, so
ties go to the first-encountered element; `None` on an empty list (where
Python raises ValueError — unreachable behind the line 152 guard). -/
def pyMaxByScore : List EvaluatedToken → Option EvaluatedToken
  | [] => none
  | t :: ts => some (ts.foldl (fun best x => if x.score > best.score then x else best) t)

/-- Outcome of `main` after the evaluation loop. -/
inductive RunOutcome where
  | noValidTokens
  | monitored (best : EvaluatedToken)

/-- Lines 152-166 of `main`: empty evaluated list prints
"No valid tokens found." and returns (no selection, no monitoring);
otherwise the max-score token is selected and monitored. -/
def mainAfterEval (ts : List EvaluatedToken) : Except PyErr RunOutcome :=
  if ts.isEmpty then .ok .noValidTokens
  else
    match pyMaxByScore ts with
    | some b => .ok (.monitored b)
    | none => .error .valueError

/-- Constants, lines 12-16. -/
def MONITOR_DURATION : Nat := 60

/-- Interval between API requests in seconds, line 13. -/
def FETCH_INTERVAL : Nat := 10

/-- Starting balance in USD, line 14. -/
def INITIAL_BALANCE : ℚ := 200

/-- Sell if price drops below 95 percent of the bought price, line 15. -/
def SELL_DROP_THRESHOLD : ℚ := 0.95

/-- Sell if price exceeds 110 percent of the bought price, line 16. -/
def SELL_GAIN_THRESHOLD : ℚ := 1.10

/-- Local state of `monitor_token` (lines 103-105): `buy_price` (None
until the initial buy), `purchased_amount`, `current_balance`. -/
structure MonitorState where
  buy_price : Option ℚ
  purchased_amount : ℚ
  current_balance : ℚ
deriving DecidableEq

/-- Initial monitor state (lines 103-105). -/
def initState : MonitorState := ⟨none, 0, INITIAL_BALANCE⟩

/-- Outcome of one iteration of the `while True` loop. -/
inductive StepResult where
  | running (s : MonitorState)
  | sold (s : MonitorState) (profit : ℚ)
  | errored (s : MonitorState) (e : PyErr)
deriving DecidableEq

/-- State carried by a step outcome. -/
def stepState : StepResult → MonitorState
  | .running s => s
  | .sold s _ => s
  | .errored s _ => s

/-- Price extraction in the monitor loop (lines 114-115):
`token_name = token_data["pairs"][0]["baseToken"]["symbol"]` then
`price = float(token_data["pairs"][0]["priceUsd"])`, in source order. -/
def monitorParse (token_data : Json) : Except PyErr ℚ := do
  let pairs ← getItem token_data "pairs"
  let p0 ← indexNat pairs 0
  let baseToken ← getItem p0 "baseToken"
  let _token_name ← getItem baseToken "symbol"
  pyFloat (← getItem p0 "priceUsd")

/-- Sell check (lines 126-132): on a trigger, compute the profit, add it
to the balance and return (the loop ends); otherwise keep waiting. -/
def checkSell (s : MonitorState) (price : ℚ) : StepResult :=
  match s.buy_price with
  | some bp =>
      if price ≤ bp * SELL_DROP_THRESHOLD ∨ bp * SELL_GAIN_THRESHOLD ≤ price then
        let profit := (price - bp) * s.purchased_amount
        .sold { s with current_balance := s.current_balance + profit } profit
      else .running s
  | none => .running s

/-- One iteration of the monitor loop (lines 107-138): fetch and parse the
price (any exception is caught by the `except Exception` at line 136 and
ends the loop); on the first successful observation buy (lines 120-123) —
`buy_price = price` is assigned before `current_balance / buy_price`, so a
zero price leaves `buy_price` set and raises ZeroDivisionError — then fall
through to the sell check in the same iteration. -/
def monitorStep (s : MonitorState) (fetchResult : Except PyErr Json) : StepResult :=
  match fetchResult >>= monitorParse with
  | .error e => .errored s e
  | .ok price =>
      match s.buy_price with
      | none =>
          if price = 0 then
            .errored { s with buy_price := some price } .zeroDivisionError
          else
            checkSell { s with buy_price := some price,
                               purchased_amount := s.current_balance / price } price
      | some _ => checkSell s price

/-- How a (finite prefix of a) monitor run ends. -/
inductive MonitorResult where
  | soldAt (s : MonitorState) (profit : ℚ)
  | erroredAt (s : MonitorState) (e : PyErr)
  | stillRunning (s : MonitorState)
deriving DecidableEq

/-- The monitor loop run on a finite prefix of fetch outcomes: it returns
at a sell or an error, and is still running (would keep polling) when the
observations are exhausted. -/
def monitorRun (s : MonitorState) : List (Except PyErr Json) → MonitorResult
  | [] => .stillRunning s
  | o :: os =>
      match monitorStep s o with
      | .running s' => monitorRun s' os
      | .sold s' p => .soldAt s' p
      | .errored s' e => .erroredAt s' e

/-- 1 when a step took the position from no-buy to bought (the line 120-123
branch ran to the assignment of `buy_price`), else 0. -/
def buyCount (s s' : MonitorState) : Nat :=
  if s.buy_price.isNone && s'.buy_price.isSome then 1 else 0

/-- Instrumented run: counts (buy events, sell events) along the same
trajectory as `monitorRun`. -/
def runCounts (s : MonitorState) : List (Except PyErr Json) → Nat × Nat
  | [] => (0, 0)
  | o :: os =>
      match monitorStep s o with
      | .errored s' _ => (buyCount s s', 0)
      | .sold s' _ => (buyCount s s', 1)
      | .running s' =>
          let r := runCounts s' os
          (buyCount s s' + r.1, r.2)

/-- Test fixture: a pair dict whose numeric fields are all present as
numbers (plus the `baseToken.symbol` needed for the result dict). -/
def mkPair (l v b s f p : ℚ) : Json :=
  Json.obj
    [("liquidity", Json.obj [("usd", Json.num l)]),
     ("volume", Json.obj [("h24", Json.num v)]),
     ("txns", Json.obj [("h24", Json.obj [("buys", Json.num b), ("sells", Json.num s)])]),
     ("fdv", Json.num f),
     ("priceChange", Json.obj [("h24", Json.num p)]),
     ("baseToken", Json.obj [("symbol", Json.str "TKN")])]

/-- Test fixture: a details response holding one pair. -/
def mkTokenData (l v b s f p : ℚ) : Json :=
  Json.obj [("pairs", Json.arr [mkPair l v b s f p])]

/-- Test fixture: a details response as the monitor reads it — one pair
with a symbol and a numeric `priceUsd`. -/
def mkTd (p : ℚ) : Json :=
  Json.obj [("pairs", Json.arr
    [Json.obj [("baseToken", Json.obj [("symbol", Json.str "TKN")]),
               ("priceUsd", Json.num p)]])]

/-- Test fixture: holding 2 units bought at 100, balance 200. -/
def hold100 : MonitorState := ⟨some 100, 2, 200⟩

/-! Helper lemmas. -/

theorem okBind (a : α) (f : α → Except PyErr β) :
    (Except.ok a : Except PyErr α) >>= f = f a := rfl

theorem errBind (e : PyErr) (f : α → Except PyErr β) :
    (Except.error e : Except PyErr α) >>= f = Except.error e := rfl

theorem bindOkId (x : Except PyErr α) : (x >>= fun a => Except.ok a) = x := by
  cases x <;> rfl

/-- Extraction on a fully numeric pair: every field parses, the ratio is
`buys / max sells 1`, and `market_cap` falls back to `fdv` (absent in
`mkPair`). -/
theorem extractFields_mkPair (l v b s f p : ℚ) :
    extractFields (mkPair l v b s f p) = .ok ⟨l, v, b, s, b / max s 1, f, p, f⟩ := rfl

/-- The monitor's parse of the `mkTd` fixture yields its price. -/
theorem monitorParse_mkTd (p : ℚ) : monitorParse (mkTd p) = .ok p := rfl

/-- `monitorStep` on a successful fetch, written as a match on the parse. -/
theorem monitorStep_ok (s : MonitorState) (td : Json) :
    monitorStep s (.ok td) =
      (match monitorParse td with
       | .error e => .errored s e
       | .ok price =>
          match s.buy_price with
          | none =>
              if price = 0 then
                .errored { s with buy_price := some price } .zeroDivisionError
              else
                checkSell { s with buy_price := some price,
                                   purchased_amount := s.current_balance / price } price
          | some _ => checkSell s price) := rfl

/-- `dictGet` returns the default when no field has the key. -/
theorem dictGet_not_mem (fs : List (String × Json)) (k : String) (d : Json)
    (h : ∀ kv ∈ fs, kv.1 ≠ k) : dictGet (Json.obj fs) k d = .ok d := by
  have : fs.find? (fun kv => kv.1 == k) = none :=
    List.find?_eq_none.mpr (fun kv hkv => by simp [h kv hkv])
  simp [dictGet, this]

/-! Claim theorems. -/

/-- C1: for every pair snapshot whose fields parse as numbers, the score
is deterministic (it is a pure function of the extracted fields) and
equals `(liquidity*0.4 + volume24h*0.3 + (buys24h / max(sells24h,1))*0.2
+ priceChange24h*0.1) / max(fdv,1)`; `sells24h = 0` does not raise (the
ratio denominator is floored at 1); and on
`liquidity=1000, volume24h=500, buys24h=10, sells24h=5, fdv=2000,
priceChange24h=3` the score is exactly 0.27535. -/
theorem score_formula_exact (l v b s f p : ℚ) :
    scoreOfPair (mkPair l v b s f p)
        = .ok ((l * 0.4 + v * 0.3 + (b / max s 1) * 0.2 + p * 0.1) / max f 1) ∧
    scoreOfPair (mkPair l v b 0 f p)
        = .ok ((l * 0.4 + v * 0.3 + b * 0.2 + p * 0.1) / max f 1) ∧
    scoreOfPair (mkPair 1000 500 10 5 2000 3) = .ok 0.27535 := by
  refine ⟨rfl, ?_, ?_⟩
  · rw [scoreOfPair, extractFields_mkPair]
    norm_num [computeScore, Except.map]
  · rw [scoreOfPair, extractFields_mkPair]
    norm_num [computeScore, Except.map]

/-- C4: on a pair object missing all of the looked-up fields, extraction
raises nothing and produces the defaults — liquidity 0, volume24h 0,
buys24h 0, sells24h 0 (hence ratio 0), fdv 1, priceChange24h 0 and
marketCap = fdv = 1; and with only `fdv` present as a number `q`,
marketCap defaults to that (possibly non-default) fdv value `q`. -/
theorem extraction_defaults (fs : List (String × Json))
    (h : ∀ kv ∈ fs, kv.1 ∉
      (["liquidity", "volume", "txns", "fdv", "priceChange", "marketCap"] : List String)) :
    extractFields (Json.obj fs) = .ok ⟨0, 0, 0, 0, 0, 1, 0, 1⟩ ∧
    ∀ q : ℚ, extractFields (Json.obj [("fdv", Json.num q)]) = .ok ⟨0, 0, 0, 0, 0, q, 0, q⟩ := by
  have hne : ∀ k ∈ (["liquidity", "volume", "txns", "fdv", "priceChange", "marketCap"] : List String),
      ∀ kv ∈ fs, kv.1 ≠ k := by
    intro k hk kv hkv he
    rw [← he] at hk
    exact h kv hkv hk
  refine ⟨?_, fun q => ?_⟩
  · simp only [extractFields,
      dictGet_not_mem fs "liquidity" _ (hne "liquidity" (by decide)),
      dictGet_not_mem fs "volume" _ (hne "volume" (by decide)),
      dictGet_not_mem fs "txns" _ (hne "txns" (by decide)),
      dictGet_not_mem fs "fdv" _ (hne "fdv" (by decide)),
      dictGet_not_mem fs "priceChange" _ (hne "priceChange" (by decide)),
      dictGet_not_mem fs "marketCap" _ (hne "marketCap" (by decide)),
      okBind]
    norm_num [dictGet, pyFloat, okBind]
  · rw [show extractFields (Json.obj [("fdv", Json.num q)])
        = .ok ⟨0, 0, 0, 0, (0 : ℚ) / max 0 1, q, 0, q⟩ from rfl]
    norm_num

/-- Witness for C4 at a concrete field list. -/
theorem extraction_defaults_witness :
    extractFields (Json.obj [("foo", Json.num 7)]) = .ok ⟨0, 0, 0, 0, 0, 1, 0, 1⟩ ∧
    extractFields (Json.obj [("fdv", Json.num 9)]) = .ok ⟨0, 0, 0, 0, 0, 9, 0, 9⟩ := by
  have h := extraction_defaults [("foo", Json.num 7)] (by
    intro kv hkv
    simp only [List.mem_singleton] at hkv
    rw [hkv]
    decide)
  exact ⟨h.1, h.2 9⟩

/-- C7: with an empty evaluated-token list, `main` takes the line 152
branch — it prints and returns: no exception, no selection, no
monitoring. -/
theorem empty_batch_graceful : mainAfterEval [] = .ok .noValidTokens := rfl

/-- C10: if the first successfully fetched price is exactly 0, the buy
records `buy_price = 0` and `current_balance / buy_price` raises
ZeroDivisionError, which the line 136 catch-all turns into an immediate
return: no sell event, balance still `INITIAL_BALANCE`, whatever
observations would have followed. -/
theorem zero_price_division_error (rest : List (Except PyErr Json)) :
    monitorStep initState (.ok (mkTd 0))
        = .errored ⟨some 0, 0, INITIAL_BALANCE⟩ .zeroDivisionError ∧
    monitorRun initState (.ok (mkTd 0) :: rest)
        = .erroredAt ⟨some 0, 0, INITIAL_BALANCE⟩ .zeroDivisionError := by
  have h1 : monitorStep initState (.ok (mkTd 0))
      = .errored ⟨some 0, 0, INITIAL_BALANCE⟩ .zeroDivisionError := by
    rw [monitorStep_ok, monitorParse_mkTd]
    norm_num [initState]
  exact ⟨h1, by rw [monitorRun, h1]⟩

/-- C2: while a position is held at `bp` and a fetch parses to `price`,
the step sells exactly when `price ≤ bp * 0.95` or `price ≥ bp * 1.10`,
adding `(price - bp) * purchased_amount` to the balance, and a sell ends
the loop; at `bp = 100`: price 94 sells (94 ≤ 95), 109 keeps holding,
111 sells (111 ≥ 110). -/
theorem sell_rule (s : MonitorState) (bp price : ℚ) (td : Json)
    (hbp : s.buy_price = some bp) (hp : monitorParse td = .ok price) :
    (monitorStep s (.ok td) =
      if price ≤ bp * SELL_DROP_THRESHOLD ∨ bp * SELL_GAIN_THRESHOLD ≤ price then
        .sold { s with current_balance := s.current_balance + (price - bp) * s.purchased_amount }
          ((price - bp) * s.purchased_amount)
      else .running s) ∧
    (∀ rest s' p', monitorStep s (.ok td) = .sold s' p' →
        monitorRun s (.ok td :: rest) = .soldAt s' p') ∧
    monitorStep hold100 (.ok (mkTd 94)) = .sold ⟨some 100, 2, 188⟩ (-12) ∧
    monitorStep hold100 (.ok (mkTd 109)) = .running hold100 ∧
    monitorStep hold100 (.ok (mkTd 111)) = .sold ⟨some 100, 2, 222⟩ 22 := by
  refine ⟨?_, ?_, ?_, ?_, ?_⟩
  · rw [monitorStep_ok, hp]
    simp only [hbp, checkSell]
  · intro rest s' p' hsold
    rw [monitorRun, hsold]
  · rw [monitorStep_ok, monitorParse_mkTd]
    norm_num [checkSell, hold100, SELL_DROP_THRESHOLD, SELL_GAIN_THRESHOLD]
  · rw [monitorStep_ok, monitorParse_mkTd]
    norm_num [checkSell, hold100, SELL_DROP_THRESHOLD, SELL_GAIN_THRESHOLD]
  · rw [monitorStep_ok, monitorParse_mkTd]
    norm_num [checkSell, hold100, SELL_DROP_THRESHOLD, SELL_GAIN_THRESHOLD]

/-- Witness for C2 at the held state `hold100` and price 94. -/
theorem sell_rule_witness :
    monitorStep hold100 (.ok (mkTd 94)) =
      if (94 : ℚ) ≤ 100 * SELL_DROP_THRESHOLD ∨ 100 * SELL_GAIN_THRESHOLD ≤ 94 then
        .sold { hold100 with
                  current_balance := hold100.current_balance + (94 - 100) * hold100.purchased_amount }
          ((94 - 100) * hold100.purchased_amount)
      else .running hold100 :=
  (sell_rule hold100 100 94 (mkTd 94) rfl (monitorParse_mkTd 94)).1

/-- C3 amended: an exception of one of the classes named at line 94
(KeyError, ZeroDivisionError, TypeError, ValueError) raised inside a
token's evaluation is caught there, yields no result, and the batch
continues with the remaining tokens unchanged; any other exception —
in particular the bare `Exception` raised by `fetch_data` on a non-200
status — is not caught by `evaluate_token` and aborts the whole batch. -/
theorem evaluate_error_policy (tok : Json) (fr : Except PyErr Json)
    (rest : List (Json × Except PyErr Json)) (e : PyErr)
    (hbody : evalBody tok fr = .error e) :
    (caughtByEvaluate e = true → evaluate_token tok fr = .ok none ∧
        evaluateBatch ((tok, fr) :: rest) = evaluateBatch rest) ∧
    (caughtByEvaluate e = false → evaluate_token tok fr = .error e ∧
        evaluateBatch ((tok, fr) :: rest) = .error e) := by
  constructor
  · intro hc
    have h1 : evaluate_token tok fr = .ok none := by
      rw [evaluate_token, hbody]
      show (if caughtByEvaluate e = true then (Except.ok none : Except PyErr (Option EvaluatedToken))
          else Except.error e) = Except.ok none
      rw [hc]
      simp
    refine ⟨h1, ?_⟩
    show (evaluate_token tok fr >>= fun r => evaluateBatch rest >>= fun tail =>
        match r with
        | some t => pure (t :: tail)
        | none => pure tail) = evaluateBatch rest
    rw [h1, okBind]
    exact bindOkId _
  · intro hc
    have h1 : evaluate_token tok fr = .error e := by
      rw [evaluate_token, hbody]
      show (if caughtByEvaluate e = true then (Except.ok none : Except PyErr (Option EvaluatedToken))
          else Except.error e) = Except.error e
      rw [hc]
      simp
    refine ⟨h1, ?_⟩
    show (evaluate_token tok fr >>= fun r => evaluateBatch rest >>= fun tail =>
        match r with
        | some t => pure (t :: tail)
        | none => pure tail) = .error e
    rw [h1, errBind]

/-- Witness for C3's amended theorem: a token dict missing
`tokenAddress` raises KeyError inside the try, which is caught. -/
theorem evaluate_error_policy_witness :
    evaluate_token (Json.obj []) (.ok Json.null) = .ok none ∧
    evaluateBatch [(Json.obj [], .ok Json.null)] = evaluateBatch [] :=
  (evaluate_error_policy (Json.obj []) (.ok Json.null) [] .keyError rfl).1 rfl

/-- Counterexample to C3 as stated: a failed fetch (the bare `Exception`
of `fetch_data`) is not caught by the `except` clause at line 94 — it
propagates out of `evaluate_token` and aborts the batch, so the
remaining token (which evaluates fine on its own, last conjunct) is
never evaluated. -/
theorem fetch_error_aborts_batch :
    evaluate_token (Json.obj [("tokenAddress", Json.str "A")]) (.error .exception)
        = .error .exception ∧
    evaluateBatch
        [(Json.obj [("tokenAddress", Json.str "A")], .error .exception),
         (Json.obj [("tokenAddress", Json.str "B")], .ok (mkTokenData 1 1 1 1 1 1))]
        = .error .exception ∧
    evaluateBatch [(Json.obj [("tokenAddress", Json.str "B")], .ok (mkTokenData 1 1 1 1 1 1))]
        = .ok [⟨Json.str "B", Json.str "TKN", 1⟩] := by
  refine ⟨rfl, rfl, ?_⟩
  rw [show evaluateBatch [(Json.obj [("tokenAddress", Json.str "B")], .ok (mkTokenData 1 1 1 1 1 1))]
      = .ok [⟨Json.str "B", Json.str "TKN",
          computeScore ⟨1, 1, 1, 1, 1 / max 1 1, 1, 1, 1⟩⟩] from rfl]
  norm_num [computeScore]

/-- Python's `max` fold keeps the first element attaining the maximum:
the result splits the scanned list into a strictly-smaller prefix, the
result itself, and a no-larger remainder. -/
theorem foldl_max_spec (ts : List EvaluatedToken) (b : EvaluatedToken) :
    ∃ l₁ l₂,
      b :: ts = l₁ ++ (ts.foldl (fun best x => if x.score > best.score then x else best) b) :: l₂ ∧
      (∀ x ∈ l₁, x.score < (ts.foldl (fun best x => if x.score > best.score then x else best) b).score) ∧
      (∀ x ∈ b :: ts, x.score ≤ (ts.foldl (fun best x => if x.score > best.score then x else best) b).score) := by
  induction ts generalizing b with
  | nil =>
      exact ⟨[], [], rfl, by simp, by simp⟩
  | cons x ts ih =>
      by_cases hgt : x.score > b.score
      · obtain ⟨l₁, l₂, hsplit, hlt, hle⟩ := ih x
        refine ⟨b :: l₁, l₂, ?_, ?_, ?_⟩
        · simpa [List.foldl_cons, if_pos hgt] using congrArg (List.cons b) hsplit
        · intro y hy
          rcases List.mem_cons.mp hy with hyb | hyl
          · subst hyb
            calc y.score < x.score := hgt
              _ ≤ _ := by
                  simpa [List.foldl_cons, if_pos hgt] using hle x (List.mem_cons_self x ts)
          · simpa [List.foldl_cons, if_pos hgt] using hlt y hyl
        · intro y hy
          rcases List.mem_cons.mp hy with hyb | hyl
          · subst hyb
            have hx := hle x (List.mem_cons_self x ts)
            simp only [List.foldl_cons, if_pos hgt]
            exact le_of_lt (lt_of_lt_of_le hgt (by simpa [List.foldl_cons, if_pos hgt] using hx))
          · simpa [List.foldl_cons, if_pos hgt] using hle y hyl
      · have hle' : x.score ≤ b.score := le_of_not_lt hgt
        obtain ⟨l₁, l₂, hsplit, hlt, hle⟩ := ih b
        cases l₁ with
        | nil =>
            simp only [List.nil_append] at hsplit
            have hb : b = ts.foldl (fun best x => if x.score > best.score then x else best) b :=
              (List.cons.injEq _ _ _ _ ▸ hsplit).1
            refine ⟨[], x :: ts, ?_, by simp, ?_⟩
            · simp only [List.foldl_cons, if_neg hgt, List.nil_append]
              rw [← hb]
            · intro y hy
              simp only [List.foldl_cons, if_neg hgt]
              rcases List.mem_cons.mp hy with hyb | hyl
              · subst hyb
                exact hle y (List.mem_cons_self y ts)
              · rcases List.mem_cons.mp hyl with hyx | hyts
                · subst hyx
                  exact le_trans hle' (hle b (List.mem_cons_self b ts))
                · exact hle y (List.mem_cons.mpr (Or.inr hyts))
        | cons c l₁ =>
            simp only [List.cons_append] at hsplit
            have hbc : b = c := (List.cons.injEq _ _ _ _ ▸ hsplit).1
            have hts : ts = l₁ ++ (ts.foldl (fun best x => if x.score > best.score then x else best) b) :: l₂ :=
              (List.cons.injEq _ _ _ _ ▸ hsplit).2
            refine ⟨b :: x :: l₁, l₂, ?_, ?_, ?_⟩
            · simp only [List.foldl_cons, if_neg hgt, List.cons_append]
              rw [← hts]
            · intro y hy
              simp only [List.foldl_cons, if_neg hgt]
              have hbres : b.score < (ts.foldl (fun best x => if x.score > best.score then x else best) b).score := by
                have := hlt c (List.mem_cons_self c l₁)
                rwa [← hbc] at this
              rcases List.mem_cons.mp hy with hyb | hyl
              · subst hyb
                exact hbres
              · rcases List.mem_cons.mp hyl with hyx | hyl₁
                · subst hyx
                  exact lt_of_le_of_lt hle' hbres
                · exact hlt y (List.mem_cons.mpr (Or.inr hyl₁))
            · intro y hy
              simp only [List.foldl_cons, if_neg hgt]
              rcases List.mem_cons.mp hy with hyb | hyl
              · subst hyb
                exact hle y (List.mem_cons_self y ts)
              · rcases List.mem_cons.mp hyl with hyx | hyts
                · subst hyx
                  exact le_trans hle' (hle b (List.mem_cons_self b ts))
                · exact hle y (List.mem_cons.mpr (Or.inr hyts))

/-- C5: on a non-empty list the selector returns an element of the list
whose score is maximal, and it is the first-encountered maximum (every
earlier element scores strictly less); on scores `[0.1, 0.5, 0.3]` it
returns the 0.5 entry. -/
theorem selector_stable_max (ts : List EvaluatedToken) (h : ts ≠ []) :
    (∃ best l₁ l₂, pyMaxByScore ts = some best ∧ ts = l₁ ++ best :: l₂ ∧
        (∀ x ∈ l₁, x.score < best.score) ∧ (∀ x ∈ ts, x.score ≤ best.score)) ∧
    pyMaxByScore
        [⟨Json.null, Json.null, 0.1⟩, ⟨Json.null, Json.null, 0.5⟩, ⟨Json.null, Json.null, 0.3⟩]
      = some ⟨Json.null, Json.null, 0.5⟩ := by
  constructor
  · match ts, h with
    | t :: ts, _ =>
        obtain ⟨l₁, l₂, hsplit, hlt, hle⟩ := foldl_max_spec ts t
        exact ⟨_, l₁, l₂, rfl, hsplit, hlt, fun x hx => hle x (hsplit ▸ List.mem_append.mpr
          (by rcases List.mem_append.mp (hsplit ▸ hx) with h1 | h2
              · exact Or.inl h1
              · exact Or.inr h2))⟩
  · norm_num [pyMaxByScore]

/-- Witness for C5 on the three-element list from the spec. -/
theorem selector_stable_max_witness :
    pyMaxByScore
        [⟨Json.null, Json.null, 0.1⟩, ⟨Json.null, Json.null, 0.5⟩, ⟨Json.null, Json.null, 0.3⟩]
      = some ⟨Json.null, Json.null, 0.5⟩ :=
  (selector_stable_max [⟨Json.null, Json.null, 0.1⟩] (List.cons_ne_nil _ _)).2

/-- The sample has exactly `min k (len xs)` elements, for every oracle. -/
theorem pySample_length (pick : Nat → Nat) :
    ∀ (k : Nat) (xs : List Json), (pySample pick k xs).length = min k xs.length := by
  intro k
  induction k with
  | zero => intro xs; simp [pySample]
  | succ k ih =>
      intro xs
      cases xs with
      | nil => simp [pySample]
      | cons a as =>
          have hi : pick k % (a :: as).length < (a :: as).length :=
            Nat.mod_lt _ (by simp)
          have h1 : pySample pick (k + 1) (a :: as)
              = (a :: as).getD (pick k % (a :: as).length) Json.null
                :: pySample pick k ((a :: as).eraseIdx (pick k % (a :: as).length)) := by
            simp only [pySample, List.isEmpty_cons, Bool.false_eq_true, if_false]
          rw [h1, List.length_cons, ih, List.length_eraseIdx_of_lt hi]
          simp only [List.length_cons]
          omega

/-- The sample is drawn from the list without replacement: it is a
sublist of a permutation of the input. -/
theorem pySample_subperm (pick : Nat → Nat) :
    ∀ (k : Nat) (xs : List Json), List.Subperm (pySample pick k xs) xs := by
  intro k
  induction k with
  | zero => intro xs; simp [pySample]
  | succ k ih =>
      intro xs
      cases xs with
      | nil => simp [pySample]
      | cons a as =>
          have hi : pick k % (a :: as).length < (a :: as).length :=
            Nat.mod_lt _ (by simp)
          have hgd : (a :: as).getD (pick k % (a :: as).length) Json.null
              = (a :: as)[pick k % (a :: as).length] := by
            rw [List.getD_eq_getElem?_getD, List.getElem?_eq_getElem hi]
            rfl
          have heq : (a :: as).take (pick k % (a :: as).length)
                ++ (a :: as)[pick k % (a :: as).length]
                    :: (a :: as).drop (pick k % (a :: as).length + 1)
              = a :: as := by
            rw [List.getElem_cons_drop _ _ hi, List.take_append_drop]
          have hperm : List.Perm
              ((a :: as)[pick k % (a :: as).length]
                :: (a :: as).eraseIdx (pick k % (a :: as).length)) (a :: as) := by
            rw [List.eraseIdx_eq_take_drop_succ]
            have hp := (@List.perm_middle _ ((a :: as)[pick k % (a :: as).length])
              ((a :: as).take (pick k % (a :: as).length))
              ((a :: as).drop (pick k % (a :: as).length + 1))).symm
            rw [heq] at hp
            exact hp
          have h1 : pySample pick (k + 1) (a :: as)
              = (a :: as)[pick k % (a :: as).length]
                :: pySample pick k ((a :: as).eraseIdx (pick k % (a :: as).length)) := by
            simp only [pySample, List.isEmpty_cons, Bool.false_eq_true, if_false, hgd]
          rw [h1]
          exact ((List.subperm_cons _).mpr (ih _)).trans hperm.subperm

/-- C8: the sampler raises (the bare format `Exception` of line 35,
aborting the run, since `main` has no handler) exactly when the listing
body is not a list; on a list it never raises and returns a sample of
exactly `min(len, 15)` elements drawn without replacement — also when the
list has fewer than 15 elements. -/
theorem sampler_contract (pick : Nat → Nat) (j : Json) (xs : List Json)
    (hj : ∀ ys, j ≠ Json.arr ys) :
    get_random_tokens pick (.ok j) = .error .exception ∧
    ∃ l, get_random_tokens pick (.ok (.arr xs)) = .ok l ∧
      l.length = min xs.length 15 ∧ List.Subperm l xs := by
  constructor
  · cases j with
    | arr ys => exact absurd rfl (hj ys)
    | null => rfl
    | bool b => rfl
    | num q => rfl
    | str s => rfl
    | obj fs => rfl
  · refine ⟨pySample pick (min xs.length 15) xs, rfl, ?_, pySample_subperm pick _ xs⟩
    rw [pySample_length]
    omega

/-- Witness for C8: a null body raises; a two-element list yields a
two-element sample. -/
theorem sampler_contract_witness :
    get_random_tokens (fun _ => 0) (.ok Json.null) = .error .exception ∧
    ∃ l, get_random_tokens (fun _ => 0) (.ok (.arr [Json.num 1, Json.num 2])) = .ok l ∧
      l.length = min ([Json.num 1, Json.num 2] : List Json).length 15 ∧
      List.Subperm l [Json.num 1, Json.num 2] :=
  sampler_contract (fun _ => 0) Json.null [Json.num 1, Json.num 2] (fun ys h => by cases h)

/-- A held position with a non-triggering price keeps running, state
unchanged. -/
theorem monitorStep_hold_no_sell (s : MonitorState) (bp p : ℚ) (hbp : s.buy_price = some bp)
    (h : ¬(p ≤ bp * SELL_DROP_THRESHOLD ∨ bp * SELL_GAIN_THRESHOLD ≤ p)) :
    monitorStep s (.ok (mkTd p)) = .running s := by
  rw [monitorStep_ok, monitorParse_mkTd]
  simp only [hbp, checkSell, if_neg h]

/-- While holding, a run over non-triggering observations never ends. -/
theorem monitorRun_hold (s : MonitorState) (bp : ℚ) (hbp : s.buy_price = some bp) :
    ∀ qs : List ℚ, (∀ q ∈ qs, ¬(q ≤ bp * SELL_DROP_THRESHOLD ∨ bp * SELL_GAIN_THRESHOLD ≤ q)) →
      monitorRun s (qs.map fun q => .ok (mkTd q)) = .stillRunning s := by
  intro qs
  induction qs with
  | nil => intro _; rfl
  | cons q qs ih =>
      intro hq
      have hstep := monitorStep_hold_no_sell s bp q hbp (hq q (List.mem_cons_self q qs))
      rw [List.map_cons, monitorRun, hstep]
      exact ih (fun r hr => hq r (List.mem_cons.mpr (Or.inr hr)))

/-- The first successful nonzero-price fetch buys and keeps running when
the (just-bought) price does not trigger a sell against itself. -/
theorem monitorStep_first_buy (p : ℚ) (hz : p ≠ 0)
    (h0 : ¬(p ≤ p * SELL_DROP_THRESHOLD ∨ p * SELL_GAIN_THRESHOLD ≤ p)) :
    monitorStep initState (.ok (mkTd p))
      = .running ⟨some p, INITIAL_BALANCE / p, INITIAL_BALANCE⟩ := by
  rw [monitorStep_ok, monitorParse_mkTd]
  simp only [initState, if_neg hz, checkSell, if_neg h0]

/-- C9: the monitor loop ends only on a sell trigger or an error — over
any finite sequence of successful observations none of which triggers a
sell against the bought price `p₀`, the loop is still running at the end
— and the declared `MONITOR_DURATION` constant imposes no bound: for any
number of polls beyond `MONITOR_DURATION / FETCH_INTERVAL`, a constant
non-triggering price keeps the loop running. -/
theorem monitor_no_stop_condition (p₀ : ℚ) (ps : List ℚ) (hz : p₀ ≠ 0)
    (h0 : ¬(p₀ ≤ p₀ * SELL_DROP_THRESHOLD ∨ p₀ * SELL_GAIN_THRESHOLD ≤ p₀))
    (hps : ∀ p ∈ ps, ¬(p ≤ p₀ * SELL_DROP_THRESHOLD ∨ p₀ * SELL_GAIN_THRESHOLD ≤ p)) :
    monitorRun initState (Except.ok (mkTd p₀) :: ps.map (fun p => Except.ok (mkTd p)))
        = .stillRunning ⟨some p₀, INITIAL_BALANCE / p₀, INITIAL_BALANCE⟩ ∧
    ∀ n : Nat, MONITOR_DURATION / FETCH_INTERVAL < n →
      monitorRun initState (List.replicate n (Except.ok (mkTd p₀)))
        = .stillRunning ⟨some p₀, INITIAL_BALANCE / p₀, INITIAL_BALANCE⟩ := by
  constructor
  · rw [monitorRun, monitorStep_first_buy p₀ hz h0]
    exact monitorRun_hold _ p₀ rfl ps hps
  · intro n hn
    match n, hn with
    | m + 1, _ =>
        rw [List.replicate_succ, monitorRun, monitorStep_first_buy p₀ hz h0]
        have : List.replicate m (Except.ok (mkTd p₀) : Except PyErr Json)
            = (List.replicate m p₀).map (fun q => (Except.ok (mkTd q) : Except PyErr Json)) := by
          rw [List.map_replicate]
        rw [this]
        exact monitorRun_hold _ p₀ rfl _
          (fun q hq => by rw [List.eq_of_mem_replicate hq]; exact h0)

/-- Witness for C9 at price 1 and seven polls. -/
theorem monitor_no_stop_condition_witness :
    monitorRun initState (Except.ok (mkTd 1) :: ([1] : List ℚ).map (fun p => Except.ok (mkTd p)))
        = .stillRunning ⟨some 1, INITIAL_BALANCE / 1, INITIAL_BALANCE⟩ ∧
    monitorRun initState (List.replicate 7 (Except.ok (mkTd 1)))
        = .stillRunning ⟨some 1, INITIAL_BALANCE / 1, INITIAL_BALANCE⟩ := by
  have h := monitor_no_stop_condition 1 [1] (by norm_num)
    (by norm_num [SELL_DROP_THRESHOLD, SELL_GAIN_THRESHOLD])
    (by
      intro p hp
      rw [List.mem_singleton] at hp
      rw [hp]
      norm_num [SELL_DROP_THRESHOLD, SELL_GAIN_THRESHOLD])
  exact ⟨h.1, h.2 7 (by norm_num [MONITOR_DURATION, FETCH_INTERVAL])⟩

/-- A step counts at most one buy. -/
theorem buyCount_le_one (s s' : MonitorState) : buyCount s s' ≤ 1 := by
  unfold buyCount
  split <;> omega

/-- The sell check never touches `buy_price` or `purchased_amount`. -/
theorem stepState_checkSell (s : MonitorState) (p : ℚ) :
    (stepState (checkSell s p)).buy_price = s.buy_price ∧
    (stepState (checkSell s p)).purchased_amount = s.purchased_amount := by
  cases hbp : s.buy_price with
  | none => simp [checkSell, hbp, stepState]
  | some bp =>
      simp only [checkSell, hbp]
      split
      · simp [stepState, hbp]
      · simp [stepState, hbp]

/-- While holding, a non-terminating step leaves the state unchanged. -/
theorem monitorStep_holding_running (s : MonitorState) (o : Except PyErr Json)
    (s' : MonitorState) (bp : ℚ) (hbp : s.buy_price = some bp)
    (h : monitorStep s o = .running s') : s' = s := by
  rw [monitorStep] at h
  cases ho : o >>= monitorParse with
  | error e => simp only [ho] at h; cases h
  | ok price =>
      simp only [ho, hbp, checkSell] at h
      split at h
      · cases h
      · injection h with h2
        exact h2.symm

/-- From the no-position state, a step that keeps running has bought:
`buy_price` becomes set and the balance is untouched. -/
theorem monitorStep_from_none_running (s : MonitorState) (o : Except PyErr Json)
    (s' : MonitorState) (hbp : s.buy_price = none) (h : monitorStep s o = .running s') :
    s'.buy_price.isSome ∧ s'.current_balance = s.current_balance := by
  rw [monitorStep] at h
  cases ho : o >>= monitorParse with
  | error e => simp only [ho] at h; cases h
  | ok price =>
      simp only [ho, hbp] at h
      by_cases hz : price = 0
      · rw [if_pos hz] at h; cases h
      · rw [if_neg hz] at h
        simp only [checkSell] at h
        split at h
        · cases h
        · injection h with h2
          rw [← h2]
          exact ⟨rfl, rfl⟩

/-- A sell step always leaves `buy_price` set: selling presupposes the buy. -/
theorem monitorStep_sold_isSome (s : MonitorState) (o : Except PyErr Json)
    (s' : MonitorState) (p : ℚ) (h : monitorStep s o = .sold s' p) :
    s'.buy_price.isSome := by
  rw [monitorStep] at h
  cases ho : o >>= monitorParse with
  | error e => simp only [ho] at h; cases h
  | ok price =>
      simp only [ho] at h
      cases hbp : s.buy_price with
      | none =>
          simp only [hbp] at h
          by_cases hz : price = 0
          · rw [if_pos hz] at h; cases h
          · rw [if_neg hz] at h
            simp only [checkSell] at h
            split at h
            · injection h with h1 h2
              rw [← h1]
              rfl
            · cases h
      | some bp =>
          simp only [hbp, checkSell] at h
          split at h
          · injection h with h1 h2
            rw [← h1]
            simp [hbp]
          · cases h

/-- From a held position, a run counts no further buy and at most one
sell, exactly one when it ends in a sell. -/
theorem runCounts_holding (bp : ℚ) :
    ∀ (obs : List (Except PyErr Json)) (s : MonitorState), s.buy_price = some bp →
      (runCounts s obs).1 = 0 ∧ (runCounts s obs).2 ≤ 1 ∧
      (∀ s' p, monitorRun s obs = .soldAt s' p → (runCounts s obs).2 = 1) := by
  intro obs
  induction obs with
  | nil =>
      intro s hbp
      exact ⟨rfl, by simp [runCounts], fun s' p h => by cases h⟩
  | cons o os ih =>
      intro s hbp
      cases hstep : monitorStep s o with
      | errored s' e =>
          refine ⟨?_, ?_, fun s₂ p₂ h => ?_⟩
          · simp [runCounts, hstep, buyCount, hbp]
          · simp [runCounts, hstep]
          · simp only [monitorRun, hstep] at h
            cases h
      | sold s' p =>
          refine ⟨?_, ?_, fun s₂ p₂ h => ?_⟩
          · simp [runCounts, hstep, buyCount, hbp]
          · simp [runCounts, hstep]
          · simp [runCounts, hstep]
      | running s' =>
          have hs : s' = s := monitorStep_holding_running s o s' bp hbp hstep
          subst hs
          obtain ⟨ih1, ih2, ih3⟩ := ih s' hbp
          refine ⟨?_, ?_, fun s₂ p₂ h => ?_⟩
          · simp [runCounts, hstep, buyCount, hbp, ih1]
          · simpa [runCounts, hstep] using ih2
          · simp only [monitorRun, hstep] at h
            simpa [runCounts, hstep] using ih3 s₂ p₂ h

/-- C6 amended: along any monitor run from the initial state, the buy
happens at most once and the sell at most once; a run that ends in a sell
has exactly one buy and one sell (the sell presupposes the buy and ends
the loop); and the buy happens on the first successful price fetch with a
nonzero price, recording `buy_price = price` and
`purchased_amount = INITIAL_BALANCE / price`.  (A run cut short by a
fetch/parse error can end with no sell, and with no buy at all.) -/
theorem position_lifecycle (obs : List (Except PyErr Json)) :
    (runCounts initState obs).1 ≤ 1 ∧
    (runCounts initState obs).2 ≤ 1 ∧
    (∀ s' p, monitorRun initState obs = .soldAt s' p → runCounts initState obs = (1, 1)) ∧
    (∀ td price, monitorParse td = .ok price → price ≠ 0 →
      (stepState (monitorStep initState (.ok td))).buy_price = some price ∧
      (stepState (monitorStep initState (.ok td))).purchased_amount = INITIAL_BALANCE / price) := by
  have hfirst : ∀ td price, monitorParse td = .ok price → price ≠ 0 →
      (stepState (monitorStep initState (.ok td))).buy_price = some price ∧
      (stepState (monitorStep initState (.ok td))).purchased_amount = INITIAL_BALANCE / price := by
    intro td price hp hz
    rw [monitorStep_ok, hp]
    show (stepState (if price = 0 then _ else checkSell _ price)).buy_price = some price ∧
      (stepState (if price = 0 then _ else checkSell _ price)).purchased_amount
        = INITIAL_BALANCE / price
    rw [if_neg hz]
    obtain ⟨h1, h2⟩ := stepState_checkSell
      { initState with buy_price := some price,
                       purchased_amount := initState.current_balance / price } price
    exact ⟨h1, h2⟩
  cases obs with
  | nil =>
      exact ⟨by simp [runCounts], by simp [runCounts],
        fun s' p h => absurd h (by simp [monitorRun]), hfirst⟩
  | cons o os =>
      cases hstep : monitorStep initState o with
      | errored s' e =>
          refine ⟨?_, ?_, fun s₂ p₂ h => ?_, hfirst⟩
          · simpa [runCounts, hstep] using buyCount_le_one initState s'
          · simp [runCounts, hstep]
          · simp only [monitorRun, hstep] at h
            cases h
      | sold s' p =>
          have hb : buyCount initState s' = 1 := by
            simp [buyCount, initState, monitorStep_sold_isSome initState o s' p hstep]
          refine ⟨?_, ?_, fun s₂ p₂ h => ?_, hfirst⟩
          · simp [runCounts, hstep, hb]
          · simp [runCounts, hstep]
          · simp [runCounts, hstep, hb]
      | running s' =>
          obtain ⟨hsome, hbal⟩ := monitorStep_from_none_running initState o s' rfl hstep
          obtain ⟨bp', hbp'⟩ := Option.isSome_iff_exists.mp hsome
          obtain ⟨hH1, hH2, hH3⟩ := runCounts_holding bp' os s' hbp'
          have hb : buyCount initState s' = 1 := by
            simp [buyCount, initState, hsome]
          refine ⟨?_, ?_, fun s₂ p₂ h => ?_, hfirst⟩
          · simp [runCounts, hstep, hb, hH1]
          · simpa [runCounts, hstep] using hH2
          · simp only [monitorRun, hstep] at h
            simp [runCounts, hstep, hb, hH1, hH3 s₂ p₂ h]

/-- Witness for C6's amended theorem: the first successful fetch at price
2 records the buy. -/
theorem position_lifecycle_witness :
    (stepState (monitorStep initState (Except.ok (mkTd 2)))).buy_price = some 2 ∧
    (stepState (monitorStep initState (Except.ok (mkTd 2)))).purchased_amount
      = INITIAL_BALANCE / 2 :=
  (position_lifecycle []).2.2.2 (mkTd 2) 2 (monitorParse_mkTd 2) (by norm_num)

/-- Counterexample to C6 as stated: a run whose first fetch fails ends
with no buy and no sell — the buy→sell transition does not happen
"exactly once in every run". -/
theorem error_run_no_buy_no_sell :
    monitorRun initState [Except.error PyErr.exception]
        = .erroredAt initState .exception ∧
    runCounts initState [Except.error PyErr.exception] = (0, 0) :=
  ⟨rfl, rfl⟩
